import Mathlib

/-!
Verification of the stub native bridge of the Get-Together app
(androidApp/src/main/cpp/jami_jni_stub.cpp).

Every JNI entry point of the bridge is modelled as a Lean function from the
single piece of process state (the global boolean flag written
`g_daemonRunning` in the source) and its marshalled arguments to a JNI-style
result: either a fault (a pending Java exception) or a pair of the new flag
value and the returned value.  The C++ bodies contain no failure path and no
state change besides the two lifecycle setters, so every translated body is
an `Except.ok`.  Logging (the LOGI macro) produces no observable value and no
cross-call state, and is not modelled.
-/

set_option linter.unusedVariables false

namespace JamiStub

/-- A marshalled JNI return value of the bridge: nothing (a void method), a
boolean, a 32-bit integer, a string, an array of strings, a string-to-string
map, or an array of such maps. -/
inductive JValue where
  | vUnit
  | vBool (b : Bool)
  | vInt (n : Int)
  | vStr (s : String)
  | vStrList (l : List String)
  | vMap (m : List (String × String))
  | vMapList (l : List (List (String × String)))
  deriving DecidableEq, Repr

/-- A JNI-level fault (a pending Java exception).  No stub body raises one. -/
inductive JError where
  | thrown (msg : String)
  deriving DecidableEq, Repr

/-- The outcome of one native call: the post-call value of the running flag
together with the returned value, or a fault. -/
abbrev JResult := Except JError (Bool × JValue)

/-! ### The entry points, translated one-to-one from the C++ source.
The first argument of each function is the current value of the
`g_daemonRunning` flag; remaining arguments mirror the JNI signature
(the `env` and `thiz` parameters carry no data and are dropped). -/

/-- Lifecycle: reads and logs the path, releases it, changes nothing. -/
def nativeInit (st : Bool) (dataPath : String) : JResult := .ok (st, .vUnit)

/-- Lifecycle: sets the running flag to true. -/
def nativeStart (st : Bool) : JResult := .ok (true, .vUnit)

/-- Lifecycle: sets the running flag to false. -/
def nativeStop (st : Bool) : JResult := .ok (false, .vUnit)

/-- Lifecycle: returns the running flag. -/
def nativeIsRunning (st : Bool) : JResult := .ok (st, .vBool st)

/-- Account management: returns the constant placeholder account id. -/
def nativeAddAccount (st : Bool) (details : List (String × String)) : JResult :=
  .ok (st, .vStr "stub-account-id")

def nativeRemoveAccount (st : Bool) (accountId : String) : JResult := .ok (st, .vUnit)

/-- Returns a new empty string array. -/
def nativeGetAccountList (st : Bool) : JResult := .ok (st, .vStrList [])

/-- Returns a new empty HashMap. -/
def nativeGetAccountDetails (st : Bool) (accountId : String) : JResult := .ok (st, .vMap [])

def nativeGetVolatileAccountDetails (st : Bool) (accountId : String) : JResult :=
  .ok (st, .vMap [])

def nativeSetAccountDetails (st : Bool) (accountId : String)
    (details : List (String × String)) : JResult := .ok (st, .vUnit)

def nativeSetAccountActive (st : Bool) (accountId : String) (active : Bool) : JResult :=
  .ok (st, .vUnit)

def nativeUpdateProfile (st : Bool) (accountId displayName avatar fileType : String)
    (flag : Int) : JResult := .ok (st, .vUnit)

def nativeRegisterName (st : Bool) (accountId name scheme password : String) : JResult :=
  .ok (st, .vBool false)

def nativeLookupName (st : Bool) (accountId nameserver name : String) : JResult :=
  .ok (st, .vBool false)

def nativeLookupAddress (st : Bool) (accountId nameserver address : String) : JResult :=
  .ok (st, .vBool false)

def nativeExportToFile (st : Bool) (accountId destPath scheme password : String) : JResult :=
  .ok (st, .vBool false)

/-- Contacts: returns a new empty array of maps. -/
def nativeGetContacts (st : Bool) (accountId : String) : JResult := .ok (st, .vMapList [])

def nativeAddContact (st : Bool) (accountId uri : String) : JResult := .ok (st, .vUnit)

def nativeRemoveContact (st : Bool) (accountId uri : String) (ban : Bool) : JResult :=
  .ok (st, .vUnit)

def nativeGetContactDetails (st : Bool) (accountId uri : String) : JResult := .ok (st, .vMap [])

def nativeAcceptTrustRequest (st : Bool) (accountId fromId : String) : JResult :=
  .ok (st, .vUnit)

def nativeDiscardTrustRequest (st : Bool) (accountId fromId : String) : JResult :=
  .ok (st, .vUnit)

def nativeGetTrustRequests (st : Bool) (accountId : String) : JResult := .ok (st, .vMapList [])

/-- Conversations. -/
def nativeGetConversations (st : Bool) (accountId : String) : JResult := .ok (st, .vStrList [])

def nativeStartConversation (st : Bool) (accountId : String) : JResult :=
  .ok (st, .vStr "stub-conversation-id")

def nativeRemoveConversation (st : Bool) (accountId conversationId : String) : JResult :=
  .ok (st, .vBool true)

def nativeConversationInfos (st : Bool) (accountId conversationId : String) : JResult :=
  .ok (st, .vMap [])

def nativeUpdateConversationInfos (st : Bool) (accountId conversationId : String)
    (infos : List (String × String)) : JResult := .ok (st, .vUnit)

def nativeGetConversationMembers (st : Bool) (accountId conversationId : String) : JResult :=
  .ok (st, .vMapList [])

def nativeAddConversationMember (st : Bool) (accountId conversationId contactUri : String) :
    JResult := .ok (st, .vUnit)

def nativeRemoveConversationMember (st : Bool) (accountId conversationId contactUri : String) :
    JResult := .ok (st, .vUnit)

def nativeAcceptConversationRequest (st : Bool) (accountId conversationId : String) : JResult :=
  .ok (st, .vUnit)

def nativeDeclineConversationRequest (st : Bool) (accountId conversationId : String) : JResult :=
  .ok (st, .vUnit)

def nativeGetConversationRequests (st : Bool) (accountId : String) : JResult :=
  .ok (st, .vMapList [])

/-- Messaging. -/
def nativeSendMessage (st : Bool) (accountId conversationId message replyTo : String)
    (flag : Int) : JResult := .ok (st, .vUnit)

def nativeLoadConversation (st : Bool) (accountId conversationId fromMessage : String)
    (n : Int) : JResult := .ok (st, .vInt 0)

def nativeSetIsComposing (st : Bool) (accountId conversationUri : String)
    (isWriting : Bool) : JResult := .ok (st, .vUnit)

def nativeSetMessageDisplayed (st : Bool) (accountId conversationUri messageId : String)
    (status : Int) : JResult := .ok (st, .vBool true)

/-- Calls: returns the constant placeholder call id. -/
def nativePlaceCallWithMedia (st : Bool) (accountId toUri : String)
    (mediaList : List (List (String × String))) : JResult := .ok (st, .vStr "stub-call-id")

def nativeAccept (st : Bool) (accountId callId : String) : JResult := .ok (st, .vUnit)

def nativeAcceptWithMedia (st : Bool) (accountId callId : String)
    (mediaList : List (List (String × String))) : JResult := .ok (st, .vUnit)

def nativeRefuse (st : Bool) (accountId callId : String) : JResult := .ok (st, .vUnit)

def nativeHangUp (st : Bool) (accountId callId : String) : JResult := .ok (st, .vUnit)

def nativeHold (st : Bool) (accountId callId : String) : JResult := .ok (st, .vUnit)

def nativeUnhold (st : Bool) (accountId callId : String) : JResult := .ok (st, .vUnit)

def nativeMuteLocalMedia (st : Bool) (accountId callId mediaType : String)
    (mute : Bool) : JResult := .ok (st, .vUnit)

def nativeGetCallDetails (st : Bool) (accountId callId : String) : JResult := .ok (st, .vMap [])

def nativeGetCallList (st : Bool) (accountId : String) : JResult := .ok (st, .vStrList [])

/-- Conference.  Note: returns void, not an identifier. -/
def nativeCreateConfFromParticipantList (st : Bool) (accountId : String)
    (participants : List String) : JResult := .ok (st, .vUnit)

def nativeJoinParticipant (st : Bool) (accountId callId1 accountId2 callId2 : String) :
    JResult := .ok (st, .vUnit)

def nativeAddParticipant (st : Bool) (accountId callId account2Id confId : String) : JResult :=
  .ok (st, .vUnit)

def nativeHangUpConference (st : Bool) (accountId confId : String) : JResult := .ok (st, .vUnit)

def nativeGetConferenceDetails (st : Bool) (accountId confId : String) : JResult :=
  .ok (st, .vMap [])

def nativeGetParticipantList (st : Bool) (accountId confId : String) : JResult :=
  .ok (st, .vStrList [])

def nativeGetConferenceInfos (st : Bool) (accountId confId : String) : JResult :=
  .ok (st, .vMapList [])

def nativeSetConferenceLayout (st : Bool) (accountId confId : String) (layout : Int) :
    JResult := .ok (st, .vUnit)

def nativeMuteParticipant (st : Bool) (accountId confId peerId : String) (state : Bool) :
    JResult := .ok (st, .vUnit)

def nativeHangupParticipant (st : Bool) (accountId confId accountUri deviceId : String) :
    JResult := .ok (st, .vUnit)

/-- Video: a fixed two-element device list. -/
def nativeGetVideoDeviceList (st : Bool) : JResult :=
  .ok (st, .vStrList ["camera://0", "camera://1"])

def nativeGetCurrentVideoDevice (st : Bool) : JResult := .ok (st, .vStr "camera://0")

def nativeSetVideoDevice (st : Bool) (deviceId : String) : JResult := .ok (st, .vUnit)

def nativeStartVideo (st : Bool) : JResult := .ok (st, .vUnit)

def nativeStopVideo (st : Bool) : JResult := .ok (st, .vUnit)

def nativeSwitchInput (st : Bool) (accountId callId resource : String) : JResult :=
  .ok (st, .vUnit)

/-- Audio: fixed device lists. -/
def nativeGetAudioOutputDeviceList (st : Bool) : JResult :=
  .ok (st, .vStrList ["Speaker", "Earpiece"])

def nativeGetAudioInputDeviceList (st : Bool) : JResult := .ok (st, .vStrList ["Microphone"])

def nativeSetAudioOutputDevice (st : Bool) (index : Int) : JResult := .ok (st, .vUnit)

def nativeSetAudioInputDevice (st : Bool) (index : Int) : JResult := .ok (st, .vUnit)

/-! ### The call catalog: one constructor per JNI entry point, carrying the
marshalled arguments of that entry point. -/

/-- One invocation of a bridge entry point together with its arguments. -/
inductive Call where
  | init (dataPath : String)
  | start
  | stop
  | isRunning
  | addAccount (details : List (String × String))
  | removeAccount (accountId : String)
  | getAccountList
  | getAccountDetails (accountId : String)
  | getVolatileAccountDetails (accountId : String)
  | setAccountDetails (accountId : String) (details : List (String × String))
  | setAccountActive (accountId : String) (active : Bool)
  | updateProfile (accountId displayName avatar fileType : String) (flag : Int)
  | registerName (accountId name scheme password : String)
  | lookupName (accountId nameserver name : String)
  | lookupAddress (accountId nameserver address : String)
  | exportToFile (accountId destPath scheme password : String)
  | getContacts (accountId : String)
  | addContact (accountId uri : String)
  | removeContact (accountId uri : String) (ban : Bool)
  | getContactDetails (accountId uri : String)
  | acceptTrustRequest (accountId fromId : String)
  | discardTrustRequest (accountId fromId : String)
  | getTrustRequests (accountId : String)
  | getConversations (accountId : String)
  | startConversation (accountId : String)
  | removeConversation (accountId conversationId : String)
  | conversationInfos (accountId conversationId : String)
  | updateConversationInfos (accountId conversationId : String)
      (infos : List (String × String))
  | getConversationMembers (accountId conversationId : String)
  | addConversationMember (accountId conversationId contactUri : String)
  | removeConversationMember (accountId conversationId contactUri : String)
  | acceptConversationRequest (accountId conversationId : String)
  | declineConversationRequest (accountId conversationId : String)
  | getConversationRequests (accountId : String)
  | sendMessage (accountId conversationId message replyTo : String) (flag : Int)
  | loadConversation (accountId conversationId fromMessage : String) (n : Int)
  | setIsComposing (accountId conversationUri : String) (isWriting : Bool)
  | setMessageDisplayed (accountId conversationUri messageId : String) (status : Int)
  | placeCallWithMedia (accountId toUri : String)
      (mediaList : List (List (String × String)))
  | accept (accountId callId : String)
  | acceptWithMedia (accountId callId : String)
      (mediaList : List (List (String × String)))
  | refuse (accountId callId : String)
  | hangUp (accountId callId : String)
  | hold (accountId callId : String)
  | unhold (accountId callId : String)
  | muteLocalMedia (accountId callId mediaType : String) (mute : Bool)
  | getCallDetails (accountId callId : String)
  | getCallList (accountId : String)
  | createConfFromParticipantList (accountId : String) (participants : List String)
  | joinParticipant (accountId callId1 accountId2 callId2 : String)
  | addParticipant (accountId callId account2Id confId : String)
  | hangUpConference (accountId confId : String)
  | getConferenceDetails (accountId confId : String)
  | getParticipantList (accountId confId : String)
  | getConferenceInfos (accountId confId : String)
  | setConferenceLayout (accountId confId : String) (layout : Int)
  | muteParticipant (accountId confId peerId : String) (state : Bool)
  | hangupParticipant (accountId confId accountUri deviceId : String)
  | getVideoDeviceList
  | getCurrentVideoDevice
  | setVideoDevice (deviceId : String)
  | startVideo
  | stopVideo
  | switchInput (accountId callId resource : String)
  | getAudioOutputDeviceList
  | getAudioInputDeviceList
  | setAudioOutputDevice (index : Int)
  | setAudioInputDevice (index : Int)

/-- Dispatch one call to its translated entry point. -/
def step (st : Bool) : Call → JResult
  | .init p => nativeInit st p
  | .start => nativeStart st
  | .stop => nativeStop st
  | .isRunning => nativeIsRunning st
  | .addAccount d => nativeAddAccount st d
  | .removeAccount a => nativeRemoveAccount st a
  | .getAccountList => nativeGetAccountList st
  | .getAccountDetails a => nativeGetAccountDetails st a
  | .getVolatileAccountDetails a => nativeGetVolatileAccountDetails st a
  | .setAccountDetails a d => nativeSetAccountDetails st a d
  | .setAccountActive a b => nativeSetAccountActive st a b
  | .updateProfile a dn av ft fl => nativeUpdateProfile st a dn av ft fl
  | .registerName a n s p => nativeRegisterName st a n s p
  | .lookupName a ns n => nativeLookupName st a ns n
  | .lookupAddress a ns ad => nativeLookupAddress st a ns ad
  | .exportToFile a dp s p => nativeExportToFile st a dp s p
  | .getContacts a => nativeGetContacts st a
  | .addContact a u => nativeAddContact st a u
  | .removeContact a u b => nativeRemoveContact st a u b
  | .getContactDetails a u => nativeGetContactDetails st a u
  | .acceptTrustRequest a f => nativeAcceptTrustRequest st a f
  | .discardTrustRequest a f => nativeDiscardTrustRequest st a f
  | .getTrustRequests a => nativeGetTrustRequests st a
  | .getConversations a => nativeGetConversations st a
  | .startConversation a => nativeStartConversation st a
  | .removeConversation a c => nativeRemoveConversation st a c
  | .conversationInfos a c => nativeConversationInfos st a c
  | .updateConversationInfos a c i => nativeUpdateConversationInfos st a c i
  | .getConversationMembers a c => nativeGetConversationMembers st a c
  | .addConversationMember a c u => nativeAddConversationMember st a c u
  | .removeConversationMember a c u => nativeRemoveConversationMember st a c u
  | .acceptConversationRequest a c => nativeAcceptConversationRequest st a c
  | .declineConversationRequest a c => nativeDeclineConversationRequest st a c
  | .getConversationRequests a => nativeGetConversationRequests st a
  | .sendMessage a c m r fl => nativeSendMessage st a c m r fl
  | .loadConversation a c f n => nativeLoadConversation st a c f n
  | .setIsComposing a c w => nativeSetIsComposing st a c w
  | .setMessageDisplayed a c m s => nativeSetMessageDisplayed st a c m s
  | .placeCallWithMedia a t m => nativePlaceCallWithMedia st a t m
  | .accept a c => nativeAccept st a c
  | .acceptWithMedia a c m => nativeAcceptWithMedia st a c m
  | .refuse a c => nativeRefuse st a c
  | .hangUp a c => nativeHangUp st a c
  | .hold a c => nativeHold st a c
  | .unhold a c => nativeUnhold st a c
  | .muteLocalMedia a c t m => nativeMuteLocalMedia st a c t m
  | .getCallDetails a c => nativeGetCallDetails st a c
  | .getCallList a => nativeGetCallList st a
  | .createConfFromParticipantList a ps => nativeCreateConfFromParticipantList st a ps
  | .joinParticipant a c1 a2 c2 => nativeJoinParticipant st a c1 a2 c2
  | .addParticipant a c a2 cf => nativeAddParticipant st a c a2 cf
  | .hangUpConference a cf => nativeHangUpConference st a cf
  | .getConferenceDetails a cf => nativeGetConferenceDetails st a cf
  | .getParticipantList a cf => nativeGetParticipantList st a cf
  | .getConferenceInfos a cf => nativeGetConferenceInfos st a cf
  | .setConferenceLayout a cf l => nativeSetConferenceLayout st a cf l
  | .muteParticipant a cf p s => nativeMuteParticipant st a cf p s
  | .hangupParticipant a cf u d => nativeHangupParticipant st a cf u d
  | .getVideoDeviceList => nativeGetVideoDeviceList st
  | .getCurrentVideoDevice => nativeGetCurrentVideoDevice st
  | .setVideoDevice d => nativeSetVideoDevice st d
  | .startVideo => nativeStartVideo st
  | .stopVideo => nativeStopVideo st
  | .switchInput a c r => nativeSwitchInput st a c r
  | .getAudioOutputDeviceList => nativeGetAudioOutputDeviceList st
  | .getAudioInputDeviceList => nativeGetAudioInputDeviceList st
  | .setAudioOutputDevice i => nativeSetAudioOutputDevice st i
  | .setAudioInputDevice i => nativeSetAudioInputDevice st i

/-- The value of the running flag after a call (unchanged on a fault). -/
def stateAfter (st : Bool) (c : Call) : Bool :=
  match step st c with
  | .ok (st2, _) => st2
  | .error _ => st

/-- The value returned by a call (placeholder on a fault). -/
def valueOf (st : Bool) (c : Call) : JValue :=
  match step st c with
  | .ok (_, v) => v
  | .error _ => .vUnit

/-! ### Entry-point tags.  A tag names the entry point without its arguments,
so that a return value keyed by a tag is input-independent by type. -/

/-- The name of a bridge entry point, stripped of its arguments. -/
inductive EntryPoint where
  | init | start | stop | isRunning
  | addAccount | removeAccount | getAccountList | getAccountDetails
  | getVolatileAccountDetails | setAccountDetails | setAccountActive
  | updateProfile | registerName | lookupName | lookupAddress | exportToFile
  | getContacts | addContact | removeContact | getContactDetails
  | acceptTrustRequest | discardTrustRequest | getTrustRequests
  | getConversations | startConversation | removeConversation
  | conversationInfos | updateConversationInfos | getConversationMembers
  | addConversationMember | removeConversationMember
  | acceptConversationRequest | declineConversationRequest
  | getConversationRequests
  | sendMessage | loadConversation | setIsComposing | setMessageDisplayed
  | placeCallWithMedia | accept | acceptWithMedia | refuse | hangUp | hold
  | unhold | muteLocalMedia | getCallDetails | getCallList
  | createConfFromParticipantList | joinParticipant | addParticipant
  | hangUpConference | getConferenceDetails | getParticipantList
  | getConferenceInfos | setConferenceLayout | muteParticipant
  | hangupParticipant
  | getVideoDeviceList | getCurrentVideoDevice | setVideoDevice
  | startVideo | stopVideo | switchInput
  | getAudioOutputDeviceList | getAudioInputDeviceList
  | setAudioOutputDevice | setAudioInputDevice
  deriving DecidableEq

/-- The tag of a call. -/
def ep : Call → EntryPoint
  | .init _ => .init
  | .start => .start
  | .stop => .stop
  | .isRunning => .isRunning
  | .addAccount _ => .addAccount
  | .removeAccount _ => .removeAccount
  | .getAccountList => .getAccountList
  | .getAccountDetails _ => .getAccountDetails
  | .getVolatileAccountDetails _ => .getVolatileAccountDetails
  | .setAccountDetails _ _ => .setAccountDetails
  | .setAccountActive _ _ => .setAccountActive
  | .updateProfile _ _ _ _ _ => .updateProfile
  | .registerName _ _ _ _ => .registerName
  | .lookupName _ _ _ => .lookupName
  | .lookupAddress _ _ _ => .lookupAddress
  | .exportToFile _ _ _ _ => .exportToFile
  | .getContacts _ => .getContacts
  | .addContact _ _ => .addContact
  | .removeContact _ _ _ => .removeContact
  | .getContactDetails _ _ => .getContactDetails
  | .acceptTrustRequest _ _ => .acceptTrustRequest
  | .discardTrustRequest _ _ => .discardTrustRequest
  | .getTrustRequests _ => .getTrustRequests
  | .getConversations _ => .getConversations
  | .startConversation _ => .startConversation
  | .removeConversation _ _ => .removeConversation
  | .conversationInfos _ _ => .conversationInfos
  | .updateConversationInfos _ _ _ => .updateConversationInfos
  | .getConversationMembers _ _ => .getConversationMembers
  | .addConversationMember _ _ _ => .addConversationMember
  | .removeConversationMember _ _ _ => .removeConversationMember
  | .acceptConversationRequest _ _ => .acceptConversationRequest
  | .declineConversationRequest _ _ => .declineConversationRequest
  | .getConversationRequests _ => .getConversationRequests
  | .sendMessage _ _ _ _ _ => .sendMessage
  | .loadConversation _ _ _ _ => .loadConversation
  | .setIsComposing _ _ _ => .setIsComposing
  | .setMessageDisplayed _ _ _ _ => .setMessageDisplayed
  | .placeCallWithMedia _ _ _ => .placeCallWithMedia
  | .accept _ _ => .accept
  | .acceptWithMedia _ _ _ => .acceptWithMedia
  | .refuse _ _ => .refuse
  | .hangUp _ _ => .hangUp
  | .hold _ _ => .hold
  | .unhold _ _ => .unhold
  | .muteLocalMedia _ _ _ _ => .muteLocalMedia
  | .getCallDetails _ _ => .getCallDetails
  | .getCallList _ => .getCallList
  | .createConfFromParticipantList _ _ => .createConfFromParticipantList
  | .joinParticipant _ _ _ _ => .joinParticipant
  | .addParticipant _ _ _ _ => .addParticipant
  | .hangUpConference _ _ => .hangUpConference
  | .getConferenceDetails _ _ => .getConferenceDetails
  | .getParticipantList _ _ => .getParticipantList
  | .getConferenceInfos _ _ => .getConferenceInfos
  | .setConferenceLayout _ _ _ => .setConferenceLayout
  | .muteParticipant _ _ _ _ => .muteParticipant
  | .hangupParticipant _ _ _ _ => .hangupParticipant
  | .getVideoDeviceList => .getVideoDeviceList
  | .getCurrentVideoDevice => .getCurrentVideoDevice
  | .setVideoDevice _ => .setVideoDevice
  | .startVideo => .startVideo
  | .stopVideo => .stopVideo
  | .switchInput _ _ _ => .switchInput
  | .getAudioOutputDeviceList => .getAudioOutputDeviceList
  | .getAudioInputDeviceList => .getAudioInputDeviceList
  | .setAudioOutputDevice _ => .setAudioOutputDevice
  | .setAudioInputDevice _ => .setAudioInputDevice

/-! ### Call families, following the grouping of the external-interface
catalog: queries (the read-only, value-returning calls of the
account/contact/conversation/message/call/conference/device groups),
create-style calls, and mutating calls. -/

/-- The query family: read-only calls that fetch data. -/
def isQueryCall : Call → Bool
  | .getAccountList => true
  | .getAccountDetails _ => true
  | .getVolatileAccountDetails _ => true
  | .getContacts _ => true
  | .getContactDetails _ _ => true
  | .getTrustRequests _ => true
  | .getConversations _ => true
  | .conversationInfos _ _ => true
  | .getConversationMembers _ _ => true
  | .getConversationRequests _ => true
  | .loadConversation _ _ _ _ => true
  | .getCallDetails _ _ => true
  | .getCallList _ => true
  | .getConferenceDetails _ _ => true
  | .getParticipantList _ _ => true
  | .getConferenceInfos _ _ => true
  | .getVideoDeviceList => true
  | .getCurrentVideoDevice => true
  | .getAudioOutputDeviceList => true
  | .getAudioInputDeviceList => true
  | _ => false

/-- The create family: calls that would create an entity in a real engine
(add-account, start-conversation, place-call, create-conference). -/
def isCreateCall : Call → Bool
  | .addAccount _ => true
  | .startConversation _ => true
  | .placeCallWithMedia _ _ _ => true
  | .createConfFromParticipantList _ _ => true
  | _ => false

/-- The mutating family: add/remove/set/accept/decline/mute/hold and the
other action calls (everything that would change engine state for real). -/
def isMutatingCall : Call → Bool
  | .removeAccount _ => true
  | .setAccountDetails _ _ => true
  | .setAccountActive _ _ => true
  | .updateProfile _ _ _ _ _ => true
  | .registerName _ _ _ _ => true
  | .exportToFile _ _ _ _ => true
  | .addContact _ _ => true
  | .removeContact _ _ _ => true
  | .acceptTrustRequest _ _ => true
  | .discardTrustRequest _ _ => true
  | .removeConversation _ _ => true
  | .updateConversationInfos _ _ _ => true
  | .addConversationMember _ _ _ => true
  | .removeConversationMember _ _ _ => true
  | .acceptConversationRequest _ _ => true
  | .declineConversationRequest _ _ => true
  | .sendMessage _ _ _ _ _ => true
  | .setIsComposing _ _ _ => true
  | .setMessageDisplayed _ _ _ _ => true
  | .accept _ _ => true
  | .acceptWithMedia _ _ _ => true
  | .refuse _ _ => true
  | .hangUp _ _ => true
  | .hold _ _ => true
  | .unhold _ _ => true
  | .muteLocalMedia _ _ _ _ => true
  | .createConfFromParticipantList _ _ => true
  | .joinParticipant _ _ _ _ => true
  | .addParticipant _ _ _ _ => true
  | .hangUpConference _ _ => true
  | .setConferenceLayout _ _ _ => true
  | .muteParticipant _ _ _ _ => true
  | .hangupParticipant _ _ _ _ => true
  | .setVideoDevice _ => true
  | .startVideo => true
  | .stopVideo => true
  | .switchInput _ _ _ => true
  | .setAudioOutputDevice _ => true
  | .setAudioInputDevice _ => true
  | _ => false

/-- The value each query-family entry point returns, keyed by tag only, so
it cannot depend on the call arguments.  Tags outside the query family are
mapped to the void value. -/
def queryReturn : EntryPoint → JValue
  | .getAccountList => .vStrList []
  | .getAccountDetails => .vMap []
  | .getVolatileAccountDetails => .vMap []
  | .getContacts => .vMapList []
  | .getContactDetails => .vMap []
  | .getTrustRequests => .vMapList []
  | .getConversations => .vStrList []
  | .conversationInfos => .vMap []
  | .getConversationMembers => .vMapList []
  | .getConversationRequests => .vMapList []
  | .loadConversation => .vInt 0
  | .getCallDetails => .vMap []
  | .getCallList => .vStrList []
  | .getConferenceDetails => .vMap []
  | .getParticipantList => .vStrList []
  | .getConferenceInfos => .vMapList []
  | .getVideoDeviceList => .vStrList ["camera://0", "camera://1"]
  | .getCurrentVideoDevice => .vStr "camera://0"
  | .getAudioOutputDeviceList => .vStrList ["Speaker", "Earpiece"]
  | .getAudioInputDeviceList => .vStrList ["Microphone"]
  | _ => .vUnit

/-- The fixed boolean a mutating entry point returns, keyed by tag only;
none stands for a void return. -/
def mutatingReturn : EntryPoint → Option Bool
  | .registerName => some false
  | .exportToFile => some false
  | .removeConversation => some true
  | .setMessageDisplayed => some true
  | _ => none

/-- Lift an optional boolean to a return value: nothing, or the boolean. -/
def optReturn : Option Bool → JValue
  | none => .vUnit
  | some b => .vBool b

/-- The full return table of the bridge, keyed by entry-point tag and the
current flag only: since a tag carries no arguments, a value drawn from
this table cannot depend on the call arguments.  Only nativeIsRunning
consults the flag. -/
def returnTable (st : Bool) : EntryPoint → JValue
  | .init => .vUnit
  | .start => .vUnit
  | .stop => .vUnit
  | .isRunning => .vBool st
  | .addAccount => .vStr "stub-account-id"
  | .removeAccount => .vUnit
  | .getAccountList => .vStrList []
  | .getAccountDetails => .vMap []
  | .getVolatileAccountDetails => .vMap []
  | .setAccountDetails => .vUnit
  | .setAccountActive => .vUnit
  | .updateProfile => .vUnit
  | .registerName => .vBool false
  | .lookupName => .vBool false
  | .lookupAddress => .vBool false
  | .exportToFile => .vBool false
  | .getContacts => .vMapList []
  | .addContact => .vUnit
  | .removeContact => .vUnit
  | .getContactDetails => .vMap []
  | .acceptTrustRequest => .vUnit
  | .discardTrustRequest => .vUnit
  | .getTrustRequests => .vMapList []
  | .getConversations => .vStrList []
  | .startConversation => .vStr "stub-conversation-id"
  | .removeConversation => .vBool true
  | .conversationInfos => .vMap []
  | .updateConversationInfos => .vUnit
  | .getConversationMembers => .vMapList []
  | .addConversationMember => .vUnit
  | .removeConversationMember => .vUnit
  | .acceptConversationRequest => .vUnit
  | .declineConversationRequest => .vUnit
  | .getConversationRequests => .vMapList []
  | .sendMessage => .vUnit
  | .loadConversation => .vInt 0
  | .setIsComposing => .vUnit
  | .setMessageDisplayed => .vBool true
  | .placeCallWithMedia => .vStr "stub-call-id"
  | .accept => .vUnit
  | .acceptWithMedia => .vUnit
  | .refuse => .vUnit
  | .hangUp => .vUnit
  | .hold => .vUnit
  | .unhold => .vUnit
  | .muteLocalMedia => .vUnit
  | .getCallDetails => .vMap []
  | .getCallList => .vStrList []
  | .createConfFromParticipantList => .vUnit
  | .joinParticipant => .vUnit
  | .addParticipant => .vUnit
  | .hangUpConference => .vUnit
  | .getConferenceDetails => .vMap []
  | .getParticipantList => .vStrList []
  | .getConferenceInfos => .vMapList []
  | .setConferenceLayout => .vUnit
  | .muteParticipant => .vUnit
  | .hangupParticipant => .vUnit
  | .getVideoDeviceList => .vStrList ["camera://0", "camera://1"]
  | .getCurrentVideoDevice => .vStr "camera://0"
  | .setVideoDevice => .vUnit
  | .startVideo => .vUnit
  | .stopVideo => .vUnit
  | .switchInput => .vUnit
  | .getAudioOutputDeviceList => .vStrList ["Speaker", "Earpiece"]
  | .getAudioInputDeviceList => .vStrList ["Microphone"]
  | .setAudioOutputDevice => .vUnit
  | .setAudioInputDevice => .vUnit

/-- The spec phrase of testable property 4: the value is a well-formed
EMPTY collection or EMPTY mapping. -/
def isEmptyCollectionOrMapping : JValue → Bool
  | .vStrList [] => true
  | .vMapList [] => true
  | .vMap [] => true
  | _ => false

/-! ### Call sequences and the lifecycle flag. -/

/-- Run a sequence of calls from a given flag value, threading the flag. -/
def runFrom (st : Bool) (calls : List Call) : Bool := calls.foldl stateAfter st

/-- Run a sequence of calls from process start, where the flag is false. -/
def runFlag (calls : List Call) : Bool := runFrom false calls

/-- The two lifecycle calls that write the flag. -/
def isLifecycleToggle : Call → Bool
  | .start => true
  | .stop => true
  | _ => false

/-- Modelled on the spec sentence: the flag should be true exactly when the
most recent start/stop call in the sequence was a start (false when there is
none). -/
def specMostRecentStart (calls : List Call) : Bool :=
  match calls.reverse.find? isLifecycleToggle with
  | some Call.start => true
  | some _ => false
  | none => false

/-! ### A relational reading of the bridge.  Each constructor transcribes the
effect of one C++ body: which flag value it leaves behind and which value it
returns.  Determinism of the bridge is stated over this relation. -/

/-- Big-step execution relation of the bridge: from flag `st`, the given
call may produce the given result. -/
inductive Exec : Bool → Call → JResult → Prop where
  | init (st : Bool) (p : String) : Exec st (.init p) (.ok (st, .vUnit))
  | start (st : Bool) : Exec st .start (.ok (true, .vUnit))
  | stop (st : Bool) : Exec st .stop (.ok (false, .vUnit))
  | isRunning (st : Bool) : Exec st .isRunning (.ok (st, .vBool st))
  | addAccount (st : Bool) (d : List (String × String)) :
      Exec st (.addAccount d) (.ok (st, .vStr "stub-account-id"))
  | removeAccount (st : Bool) (a : String) : Exec st (.removeAccount a) (.ok (st, .vUnit))
  | getAccountList (st : Bool) : Exec st .getAccountList (.ok (st, .vStrList []))
  | getAccountDetails (st : Bool) (a : String) :
      Exec st (.getAccountDetails a) (.ok (st, .vMap []))
  | getVolatileAccountDetails (st : Bool) (a : String) :
      Exec st (.getVolatileAccountDetails a) (.ok (st, .vMap []))
  | setAccountDetails (st : Bool) (a : String) (d : List (String × String)) :
      Exec st (.setAccountDetails a d) (.ok (st, .vUnit))
  | setAccountActive (st : Bool) (a : String) (b : Bool) :
      Exec st (.setAccountActive a b) (.ok (st, .vUnit))
  | updateProfile (st : Bool) (a dn av ft : String) (fl : Int) :
      Exec st (.updateProfile a dn av ft fl) (.ok (st, .vUnit))
  | registerName (st : Bool) (a n s p : String) :
      Exec st (.registerName a n s p) (.ok (st, .vBool false))
  | lookupName (st : Bool) (a ns n : String) :
      Exec st (.lookupName a ns n) (.ok (st, .vBool false))
  | lookupAddress (st : Bool) (a ns ad : String) :
      Exec st (.lookupAddress a ns ad) (.ok (st, .vBool false))
  | exportToFile (st : Bool) (a dp s p : String) :
      Exec st (.exportToFile a dp s p) (.ok (st, .vBool false))
  | getContacts (st : Bool) (a : String) : Exec st (.getContacts a) (.ok (st, .vMapList []))
  | addContact (st : Bool) (a u : String) : Exec st (.addContact a u) (.ok (st, .vUnit))
  | removeContact (st : Bool) (a u : String) (b : Bool) :
      Exec st (.removeContact a u b) (.ok (st, .vUnit))
  | getContactDetails (st : Bool) (a u : String) :
      Exec st (.getContactDetails a u) (.ok (st, .vMap []))
  | acceptTrustRequest (st : Bool) (a f : String) :
      Exec st (.acceptTrustRequest a f) (.ok (st, .vUnit))
  | discardTrustRequest (st : Bool) (a f : String) :
      Exec st (.discardTrustRequest a f) (.ok (st, .vUnit))
  | getTrustRequests (st : Bool) (a : String) :
      Exec st (.getTrustRequests a) (.ok (st, .vMapList []))
  | getConversations (st : Bool) (a : String) :
      Exec st (.getConversations a) (.ok (st, .vStrList []))
  | startConversation (st : Bool) (a : String) :
      Exec st (.startConversation a) (.ok (st, .vStr "stub-conversation-id"))
  | removeConversation (st : Bool) (a c : String) :
      Exec st (.removeConversation a c) (.ok (st, .vBool true))
  | conversationInfos (st : Bool) (a c : String) :
      Exec st (.conversationInfos a c) (.ok (st, .vMap []))
  | updateConversationInfos (st : Bool) (a c : String) (i : List (String × String)) :
      Exec st (.updateConversationInfos a c i) (.ok (st, .vUnit))
  | getConversationMembers (st : Bool) (a c : String) :
      Exec st (.getConversationMembers a c) (.ok (st, .vMapList []))
  | addConversationMember (st : Bool) (a c u : String) :
      Exec st (.addConversationMember a c u) (.ok (st, .vUnit))
  | removeConversationMember (st : Bool) (a c u : String) :
      Exec st (.removeConversationMember a c u) (.ok (st, .vUnit))
  | acceptConversationRequest (st : Bool) (a c : String) :
      Exec st (.acceptConversationRequest a c) (.ok (st, .vUnit))
  | declineConversationRequest (st : Bool) (a c : String) :
      Exec st (.declineConversationRequest a c) (.ok (st, .vUnit))
  | getConversationRequests (st : Bool) (a : String) :
      Exec st (.getConversationRequests a) (.ok (st, .vMapList []))
  | sendMessage (st : Bool) (a c m r : String) (fl : Int) :
      Exec st (.sendMessage a c m r fl) (.ok (st, .vUnit))
  | loadConversation (st : Bool) (a c f : String) (n : Int) :
      Exec st (.loadConversation a c f n) (.ok (st, .vInt 0))
  | setIsComposing (st : Bool) (a c : String) (w : Bool) :
      Exec st (.setIsComposing a c w) (.ok (st, .vUnit))
  | setMessageDisplayed (st : Bool) (a c m : String) (s : Int) :
      Exec st (.setMessageDisplayed a c m s) (.ok (st, .vBool true))
  | placeCallWithMedia (st : Bool) (a t : String) (m : List (List (String × String))) :
      Exec st (.placeCallWithMedia a t m) (.ok (st, .vStr "stub-call-id"))
  | accept (st : Bool) (a c : String) : Exec st (.accept a c) (.ok (st, .vUnit))
  | acceptWithMedia (st : Bool) (a c : String) (m : List (List (String × String))) :
      Exec st (.acceptWithMedia a c m) (.ok (st, .vUnit))
  | refuse (st : Bool) (a c : String) : Exec st (.refuse a c) (.ok (st, .vUnit))
  | hangUp (st : Bool) (a c : String) : Exec st (.hangUp a c) (.ok (st, .vUnit))
  | hold (st : Bool) (a c : String) : Exec st (.hold a c) (.ok (st, .vUnit))
  | unhold (st : Bool) (a c : String) : Exec st (.unhold a c) (.ok (st, .vUnit))
  | muteLocalMedia (st : Bool) (a c t : String) (m : Bool) :
      Exec st (.muteLocalMedia a c t m) (.ok (st, .vUnit))
  | getCallDetails (st : Bool) (a c : String) :
      Exec st (.getCallDetails a c) (.ok (st, .vMap []))
  | getCallList (st : Bool) (a : String) : Exec st (.getCallList a) (.ok (st, .vStrList []))
  | createConfFromParticipantList (st : Bool) (a : String) (ps : List String) :
      Exec st (.createConfFromParticipantList a ps) (.ok (st, .vUnit))
  | joinParticipant (st : Bool) (a c1 a2 c2 : String) :
      Exec st (.joinParticipant a c1 a2 c2) (.ok (st, .vUnit))
  | addParticipant (st : Bool) (a c a2 cf : String) :
      Exec st (.addParticipant a c a2 cf) (.ok (st, .vUnit))
  | hangUpConference (st : Bool) (a cf : String) :
      Exec st (.hangUpConference a cf) (.ok (st, .vUnit))
  | getConferenceDetails (st : Bool) (a cf : String) :
      Exec st (.getConferenceDetails a cf) (.ok (st, .vMap []))
  | getParticipantList (st : Bool) (a cf : String) :
      Exec st (.getParticipantList a cf) (.ok (st, .vStrList []))
  | getConferenceInfos (st : Bool) (a cf : String) :
      Exec st (.getConferenceInfos a cf) (.ok (st, .vMapList []))
  | setConferenceLayout (st : Bool) (a cf : String) (l : Int) :
      Exec st (.setConferenceLayout a cf l) (.ok (st, .vUnit))
  | muteParticipant (st : Bool) (a cf p : String) (s : Bool) :
      Exec st (.muteParticipant a cf p s) (.ok (st, .vUnit))
  | hangupParticipant (st : Bool) (a cf u d : String) :
      Exec st (.hangupParticipant a cf u d) (.ok (st, .vUnit))
  | getVideoDeviceList (st : Bool) :
      Exec st .getVideoDeviceList (.ok (st, .vStrList ["camera://0", "camera://1"]))
  | getCurrentVideoDevice (st : Bool) :
      Exec st .getCurrentVideoDevice (.ok (st, .vStr "camera://0"))
  | setVideoDevice (st : Bool) (d : String) : Exec st (.setVideoDevice d) (.ok (st, .vUnit))
  | startVideo (st : Bool) : Exec st .startVideo (.ok (st, .vUnit))
  | stopVideo (st : Bool) : Exec st .stopVideo (.ok (st, .vUnit))
  | switchInput (st : Bool) (a c r : String) : Exec st (.switchInput a c r) (.ok (st, .vUnit))
  | getAudioOutputDeviceList (st : Bool) :
      Exec st .getAudioOutputDeviceList (.ok (st, .vStrList ["Speaker", "Earpiece"]))
  | getAudioInputDeviceList (st : Bool) :
      Exec st .getAudioInputDeviceList (.ok (st, .vStrList ["Microphone"]))
  | setAudioOutputDevice (st : Bool) (i : Int) :
      Exec st (.setAudioOutputDevice i) (.ok (st, .vUnit))
  | setAudioInputDevice (st : Bool) (i : Int) :
      Exec st (.setAudioInputDevice i) (.ok (st, .vUnit))

/-! ### Helper lemmas. -/

/-- The execution relation agrees with the dispatch function. -/
theorem exec_step {st : Bool} {c : Call} {r : JResult} (h : Exec st c r) : step st c = r := by
  cases h <;> rfl

/-- Every call executes, and the dispatch function computes its outcome. -/
theorem step_exec (st : Bool) (c : Call) : Exec st c (step st c) := by
  cases c <;> constructor

/-- Calls other than the two lifecycle setters leave the flag alone. -/
theorem stateAfter_of_not_toggle (st : Bool) (c : Call)
    (h : isLifecycleToggle c = false) : stateAfter st c = st := by
  cases c <;> first | rfl | exact Bool.noConfusion h

/-- Running a call sequence computes exactly the most-recent-toggle value,
for any initial flag. -/
theorem runFrom_eq_lastToggle (calls : List Call) : ∀ st : Bool,
    runFrom st calls =
      match calls.reverse.find? isLifecycleToggle with
      | some Call.start => true
      | some _ => false
      | none => st := by
  induction calls with
  | nil => intro st; rfl
  | cons c cs ih =>
    intro st
    show runFrom (stateAfter st c) cs = _
    rw [ih]
    rw [List.reverse_cons, List.find?_append]
    cases hf : cs.reverse.find? isLifecycleToggle with
    | some x => cases x <;> rfl
    | none => cases c <;> rfl

/-- From process start, the flag equals the spec-side reading of the
sequence. -/
theorem runFlag_eq_spec (calls : List Call) : runFlag calls = specMostRecentStart calls := by
  show runFrom false calls = specMostRecentStart calls
  rw [runFrom_eq_lastToggle calls false]
  unfold specMostRecentStart
  cases hf : calls.reverse.find? isLifecycleToggle with
  | none => rfl
  | some x => cases x <;> rfl

/-- The value a call returns is read off the return table at its tag. -/
theorem valueOf_eq_returnTable (st : Bool) (c : Call) :
    valueOf st c = returnTable st (ep c) := by
  cases c <;> rfl

/-! ### The claims. -/

/-- Claim C1: the lifecycle flag is a two-state machine with no illegal
transitions.  After any call sequence (starting from process start, where
the flag is false), nativeIsRunning reports true exactly when the most
recent of nativeStart/nativeStop in the sequence was nativeStart; in
particular it reports false before any nativeStart, and a nativeStop before
any nativeStart is accepted silently. -/
theorem isRunning_reflects_last_lifecycle_toggle (calls : List Call) :
    step (runFlag calls) Call.isRunning =
      Except.ok (runFlag calls, JValue.vBool (specMostRecentStart calls)) := by
  rw [runFlag_eq_spec]
  rfl

/-- Claim C2, counterexample: nativeGetVideoDeviceList is a query-family
call, yet its return value is not an empty collection or empty mapping (it
is the fixed two-element device list). -/
theorem video_device_list_not_empty_collection :
    isQueryCall Call.getVideoDeviceList = true ∧
    isEmptyCollectionOrMapping (valueOf false Call.getVideoDeviceList) = false :=
  ⟨rfl, rfl⟩

/-- Claim C2, amended: every query-family call leaves the flag unchanged and
returns a well-formed value determined by the entry point alone, never a
null/undefined result: an empty collection or empty mapping for every query
except the three device-enumeration lists (fixed non-empty string lists),
the current-video-device query (a fixed device string), and the
conversation-load call (the fixed count 0). -/
theorem query_calls_return_wellformed_value (st : Bool) (c : Call)
    (h : isQueryCall c = true) :
    step st c = Except.ok (st, queryReturn (ep c)) ∧ queryReturn (ep c) ≠ JValue.vUnit := by
  cases c <;> first
    | exact ⟨rfl, fun hv => JValue.noConfusion hv⟩
    | exact Bool.noConfusion h

/-- Witness for the amended C2 theorem at the account-list query. -/
theorem query_calls_return_wellformed_value_witness :
    step false Call.getAccountList = Except.ok (false, JValue.vStrList []) ∧
    JValue.vStrList [] ≠ JValue.vUnit :=
  query_calls_return_wellformed_value false Call.getAccountList rfl

/-- Claim C3, counterexample: the conference-creation entry point is a
create-style call of the catalog, yet it returns no identifier string at
all (its return type is void), so it returns no non-empty placeholder
identifier on the given concrete input. -/
theorem create_conference_returns_no_identifier :
    isCreateCall (Call.createConfFromParticipantList "" []) = true ∧
    ¬ ∃ s : String, s ≠ "" ∧
        valueOf false (Call.createConfFromParticipantList "" []) = JValue.vStr s := by
  refine ⟨rfl, ?_⟩
  rintro ⟨s, hs, hv⟩
  exact JValue.noConfusion hv

/-- Claim C3, amended: every string-returning create-style call returns its
fixed non-empty placeholder identifier on every input — nativeAddAccount
returns "stub-account-id", nativeStartConversation returns
"stub-conversation-id", nativePlaceCallWithMedia returns "stub-call-id" —
while the remaining create-style entry point,
nativeCreateConfFromParticipantList, returns nothing. -/
theorem create_calls_fixed_identifiers (st : Bool) (d : List (String × String))
    (a t : String) (ml : List (List (String × String))) (ps : List String) :
    nativeAddAccount st d = Except.ok (st, JValue.vStr "stub-account-id") ∧
    "stub-account-id" ≠ "" ∧
    nativeStartConversation st a = Except.ok (st, JValue.vStr "stub-conversation-id") ∧
    "stub-conversation-id" ≠ "" ∧
    nativePlaceCallWithMedia st a t ml = Except.ok (st, JValue.vStr "stub-call-id") ∧
    "stub-call-id" ≠ "" ∧
    nativeCreateConfFromParticipantList st a ps = Except.ok (st, JValue.vUnit) :=
  ⟨rfl, by decide, rfl, by decide, rfl, by decide, rfl⟩

/-- Claim C4: every entry point of the bridge, on every argument value
(arbitrary strings including the empty string, booleans, integers) and
every flag state, completes successfully: no call path reports a fault. -/
theorem every_call_completes (st : Bool) (c : Call) :
    ∃ r : Bool × JValue, step st c = Except.ok r := by
  cases c <;> exact ⟨_, rfl⟩

/-- Claim C5: every operation of the bridge is a constant function of its
arguments: two calls to the same entry point, from the same flag value,
return the same value whatever their argument lists are — the output
carries no information about the input. -/
theorem return_value_independent_of_arguments (st : Bool) (c1 c2 : Call)
    (h : ep c1 = ep c2) : valueOf st c1 = valueOf st c2 := by
  rw [valueOf_eq_returnTable, valueOf_eq_returnTable, h]

/-- Witness for C5: two different account ids give the same details. -/
theorem return_value_independent_of_arguments_witness :
    valueOf false (Call.getAccountDetails "alice") =
      valueOf false (Call.getAccountDetails "bob") :=
  return_value_independent_of_arguments false
    (Call.getAccountDetails "alice") (Call.getAccountDetails "bob") rfl

/-- Claim C6: the running flag is the only cross-call state, and only the
two lifecycle setters write it: every other call leaves the flag unchanged,
and nativeInit in particular records nothing. -/
theorem flag_only_state_and_init_stateless :
    (∀ (st : Bool) (c : Call), c ≠ Call.start → c ≠ Call.stop → stateAfter st c = st) ∧
    (∀ (st : Bool) (p : String), step st (Call.init p) = Except.ok (st, JValue.vUnit)) := by
  refine ⟨fun st c h1 h2 => ?_, fun st p => rfl⟩
  cases c <;> first | rfl | exact absurd rfl h1 | exact absurd rfl h2

/-- Witness for C6 at nativeInit with a concrete path. -/
theorem flag_only_state_and_init_stateless_witness :
    stateAfter false (Call.init "/data/jami") = false :=
  flag_only_state_and_init_stateless.1 false (Call.init "/data/jami")
    (fun h => Call.noConfusion h) (fun h => Call.noConfusion h)

/-- Claim C7: every mutating call accepts its arguments, leaves the flag
(and hence all bridge state) unchanged, and returns either nothing or the
fixed boolean assigned to its entry point, independent of arguments and
state. -/
theorem mutating_calls_pure_fixed_return (st : Bool) (c : Call)
    (h : isMutatingCall c = true) :
    step st c = Except.ok (st, optReturn (mutatingReturn (ep c))) := by
  cases c <;> first | rfl | exact Bool.noConfusion h

/-- Witness for C7 at nativeRemoveConversation with concrete arguments. -/
theorem mutating_calls_pure_fixed_return_witness :
    step true (Call.removeConversation "acc" "conv") = Except.ok (true, JValue.vBool true) :=
  mutating_calls_pure_fixed_return true (Call.removeConversation "acc" "conv") rfl

/-- Claim C8: the bridge is deterministic: from the same flag value, the
same entry point with the same arguments admits exactly one outcome (the
same returned value and the same post-state). -/
theorem bridge_deterministic (st : Bool) (c : Call) (r1 r2 : JResult)
    (h1 : Exec st c r1) (h2 : Exec st c r2) : r1 = r2 :=
  (exec_step h1).symm.trans (exec_step h2)

/-- Witness for C8: determinism pins the computed outcome of nativeStart. -/
theorem bridge_deterministic_witness :
    step false Call.start = Except.ok (true, JValue.vUnit) :=
  bridge_deterministic false Call.start (step false Call.start)
    (Except.ok (true, JValue.vUnit)) (step_exec false Call.start) (Exec.start false)

/-- Claim C9: the device-enumeration queries return fixed non-empty lists
on every call, and the current video device is an element of the video
device list. -/
theorem device_enumerations_fixed (st : Bool) :
    nativeGetVideoDeviceList st =
      Except.ok (st, JValue.vStrList ["camera://0", "camera://1"]) ∧
    nativeGetAudioOutputDeviceList st =
      Except.ok (st, JValue.vStrList ["Speaker", "Earpiece"]) ∧
    nativeGetAudioInputDeviceList st = Except.ok (st, JValue.vStrList ["Microphone"]) ∧
    nativeGetCurrentVideoDevice st = Except.ok (st, JValue.vStr "camera://0") ∧
    "camera://0" ∈ ["camera://0", "camera://1"] :=
  ⟨rfl, rfl, rfl, rfl, List.mem_cons_self _ _⟩

/-- Claim C10: the fixed boolean returned by each boolean-returning stub is
not uniform: the register/lookup/export calls return false on every input,
while remove-conversation and set-message-displayed return true. -/
theorem boolean_stubs_not_uniform (st : Bool)
    (a n s p ns ad dp cid mid : String) (status : Int) :
    nativeRegisterName st a n s p = Except.ok (st, JValue.vBool false) ∧
    nativeLookupName st a ns n = Except.ok (st, JValue.vBool false) ∧
    nativeLookupAddress st a ns ad = Except.ok (st, JValue.vBool false) ∧
    nativeExportToFile st a dp s p = Except.ok (st, JValue.vBool false) ∧
    nativeRemoveConversation st a cid = Except.ok (st, JValue.vBool true) ∧
    nativeSetMessageDisplayed st a cid mid status = Except.ok (st, JValue.vBool true) :=
  ⟨rfl, rfl, rfl, rfl, rfl, rfl⟩

end JamiStub
